import Mathlib

/-!
Shallow embedding of the AgenticBI query-generation and execution pipeline,
taken from src/app.py, src/backend/agent.py, src/backend/bq_client.py and
src/backend/models_config.py, together with theorems checking the
specification claims against it.

Modelling conventions:
* A pandas DataFrame is a rectangular table: an ordered list of named
  columns, each either a string column or a numeric column (numeric cells
  modelled as exact rationals).
* A Python dict keyed by strings is an association list; dict.get with a
  default is dictGet.  The query-plan dict can come from json.loads of
  untrusted model output, so keys may be missing: every plan field is an
  Option, with none standing for an absent key.
* The two non-deterministic external calls are passed in as explicit
  outcome values: the whole try-block body of the generation step (Vertex
  AI generate_content, code-fence stripping and json.loads) is an
  Except String Plan, and the live BigQuery execution is a LiveOutcome.
  A raised Python exception is identified with its message string str(e).
* Presentation-only code (streamlit widgets, CSS, plotly figure styling,
  report HTML and email) is outside the embedding; build_chart keeps the
  decision-relevant part of the source function, namely the chart-kind
  dispatch and the axis-fallback resolution.
-/

namespace AgenticBI

/-- One column of a DataFrame: either string cells or numeric cells. -/
inductive ColData where
  | strCol (vals : List String)
  | numCol (vals : List ℚ)
deriving DecidableEq

/-- A pandas DataFrame: ordered, named columns. -/
structure DFrame where
  cols : List (String × ColData)
deriving DecidableEq

def colLen : ColData → Nat
  | .strCol vs => vs.length
  | .numCol vs => vs.length

/-- len(df): the number of rows (length of the index, read off the first
column; the frames built in this development are rectangular). -/
def nRows (df : DFrame) : Nat :=
  match df.cols with
  | [] => 0
  | (_, c) :: _ => colLen c

/-- df.empty: true when any axis has length zero. -/
def dfEmpty (df : DFrame) : Bool :=
  df.cols.isEmpty || nRows df == 0

/-- df.columns.tolist() -/
def colNames (df : DFrame) : List String := df.cols.map (·.1)

/-- df.select_dtypes("number") as (name, values) pairs, in column order. -/
def numCols (df : DFrame) : List (String × List ℚ) :=
  df.cols.filterMap (fun p =>
    match p.2 with
    | .numCol vs => some (p.1, vs)
    | .strCol _ => none)

/-- df.select_dtypes("number").columns.tolist() -/
def numNames (df : DFrame) : List String := (numCols df).map (·.1)

/-- Python dict.get(k, dflt) over an association list. -/
def dictGet {α : Type} (d : List (String × α)) (k : String) (dflt : α) : α :=
  match d with
  | [] => dflt
  | (k₁, v) :: rest => if k = k₁ then v else dictGet rest k dflt

/-- Python str.replace("local_", "") on the character list: remove every
non-overlapping occurrence of the pattern, scanning left to right (the
replacement is empty, so nothing is rescanned). -/
def stripLocalAll : List Char → List Char
  | 'l' :: 'o' :: 'c' :: 'a' :: 'l' :: '_' :: rest => stripLocalAll rest
  | c :: rest => c :: stripLocalAll rest
  | [] => []

/-- models_config.get_bq_source_id (and the inline
source_id.replace("local_", "") in agent.run_agent and
bq_client.execute_sql): strip the local prefix by global replacement. -/
def get_bq_source_id (source_id : String) : String :=
  ⟨stripLocalAll source_id.data⟩

/-- One entry of models_config.AVAILABLE_MODELS.  The presentational
description and icon fields are not consumed by the pipeline under
verification and are omitted. -/
structure ModelDesc where
  id : String
  label : String
deriving DecidableEq

def AVAILABLE_MODELS : List ModelDesc :=
  [⟨"gemini-2.0-flash-001", "Gemini 2.0 Flash ⚡"⟩,
   ⟨"gemini-1.5-pro-002", "Gemini 1.5 Pro 🧠"⟩,
   ⟨"gemini-1.5-flash-002", "Gemini 1.5 Flash ⚖️"⟩,
   ⟨"gemini-1.0-pro-002", "Gemini 1.0 Pro 🔧"⟩]

def DEFAULT_MODEL_ID : String := "gemini-2.0-flash-001"

/-- models_config.get_model_by_id: first model with the given id, else the
first model of the list. -/
def get_model_by_id (model_id : String) : ModelDesc :=
  (AVAILABLE_MODELS.find? (fun m => m.id == model_id)).getD
    (AVAILABLE_MODELS.headD ⟨"", ""⟩)

/-- One entry of models_config.DATA_SOURCES.  localFlag is the dict key
"local" (a Lean keyword); icon, description and color are presentational
and omitted. -/
structure SourceDesc where
  id : String
  label : String
  localFlag : Bool
deriving DecidableEq

def DATA_SOURCES : List SourceDesc :=
  [⟨"salesforce", "Salesforce", false⟩,
   ⟨"netsuite", "NetSuite", false⟩,
   ⟨"coupa", "Coupa", false⟩,
   ⟨"workday", "Workday", false⟩,
   ⟨"jira", "JIRA", false⟩,
   ⟨"inhouse", "In-House Systems", false⟩,
   ⟨"local_salesforce", "Local · Salesforce", true⟩,
   ⟨"local_netsuite", "Local · NetSuite", true⟩,
   ⟨"local_coupa", "Local · Coupa", true⟩,
   ⟨"local_workday", "Local · Workday", true⟩,
   ⟨"local_jira", "Local · JIRA", true⟩,
   ⟨"local_inhouse", "Local · In-House", true⟩]

def SOURCE_IDS : List String := DATA_SOURCES.map (·.id)

/-- models_config.is_local_source: source.get("local", False); every
catalog entry carries the key explicitly. -/
def is_local_source (s : SourceDesc) : Bool := s.localFlag

/- ── bq_client.MOCK_DATA fixtures ──────────────────────────────────── -/

def sfDF : DFrame := ⟨[
  ("stage", .strCol ["Prospecting", "Qualification", "Proposal",
                     "Negotiation", "Closed Won", "Closed Lost"]),
  ("deal_count", .numCol [45, 32, 28, 15, 22, 8]),
  ("total_value", .numCol [890000, 1250000, 2100000, 1800000, 3200000, 450000]),
  ("avg_days_in_stage", .numCol [12, 18, 25, 30, 5, 10])]⟩

def nsDF : DFrame := ⟨[
  ("department", .strCol ["Marketing", "Operations", "HR", "IT", "Finance", "R&D"]),
  ("total_amount", .numCol [150000, 320000, 95000, 210000, 130000, 280000]),
  ("transaction_count", .numCol [45, 120, 30, 80, 55, 95]),
  ("budget_remaining", .numCol [50000, 30000, 25000, 90000, 70000, 120000])]⟩

def coupaDF : DFrame := ⟨[
  ("supplier", .strCol ["Acme Corp", "Global Parts", "TechVend",
                        "Office Pro", "CloudServ", "DataFlow"]),
  ("po_count", .numCol [28, 45, 15, 62, 20, 12]),
  ("total_spend", .numCol [245000, 520000, 180000, 95000, 310000, 150000]),
  ("avg_delivery_days", .numCol [5, 8, 3, 2, 1, 4])]⟩

def wdDF : DFrame := ⟨[
  ("department", .strCol ["Engineering", "Sales", "Marketing", "Support", "HR", "Finance"]),
  ("headcount", .numCol [120, 85, 45, 60, 15, 25]),
  ("avg_tenure_years", .numCol [3.2, 2.8, 4.1, 2.5, 5.0, 4.5]),
  ("attrition_rate", .numCol [8.5, 12.0, 6.5, 15.0, 3.0, 5.0])]⟩

def jiraDF : DFrame := ⟨[
  ("project", .strCol ["Platform", "Mobile App", "Data Pipeline",
                       "DevOps", "Frontend", "Security"]),
  ("open_issues", .numCol [45, 32, 18, 12, 55, 8]),
  ("completed_sprints", .numCol [12, 10, 8, 15, 11, 6]),
  ("avg_velocity", .numCol [28, 22, 35, 40, 25, 18])]⟩

def inhouseDF : DFrame := ⟨[
  ("metric_name", .strCol ["API Latency", "Uptime %", "DAU",
                           "Error Rate", "Throughput", "NPS Score"]),
  ("current_value", .numCol [125, 99.95, 45000, 0.3, 12000, 72]),
  ("target_value", .numCol [100, 99.99, 50000, 0.1, 15000, 80]),
  ("trend", .strCol ["↓ Improving", "→ Stable", "↑ Growing",
                     "↓ Improving", "↑ Growing", "↑ Growing"])]⟩

def MOCK_DATA : List (String × DFrame) :=
  [("salesforce", sfDF), ("netsuite", nsDF), ("coupa", coupaDF),
   ("workday", wdDF), ("jira", jiraDF), ("inhouse", inhouseDF)]

/-- bq_client.get_mock_df: MOCK_DATA.get(base, MOCK_DATA["salesforce"]). -/
def get_mock_df (base_source_id : String) : DFrame :=
  dictGet MOCK_DATA base_source_id sfDF

/-- Outcome of the live BigQuery try-block in bq_client.execute_sql:
either the materialized result frame, or the ImportError branch (the
google-cloud-bigquery library is unavailable), or any other raised
exception with its message str(e). -/
inductive LiveOutcome where
  | success (df : DFrame)
  | missingLib
  | raised (msg : String)

/-- pd.DataFrame(): the empty sentinel, no rows and no columns. -/
def emptyDF : DFrame := ⟨[]⟩

/-- bq_client.execute_sql.  The sql and question arguments are threaded
through unchanged; in live mode the submitted sql only feeds the external
call, whose outcome is the live parameter. -/
def execute_sql (sql source_id question : String) (is_local : Bool)
    (live : LiveOutcome) : DFrame × Option String :=
  let base_id := get_bq_source_id source_id
  if is_local then
    (get_mock_df base_id, none)
  else
    match live with
    | .success df => (df, none)
    | .missingLib =>
        (emptyDF, some "google-cloud-bigquery not installed. Run: pip install google-cloud-bigquery")
    | .raised e => (emptyDF, some e)

/- ── agent.py ──────────────────────────────────────────────────────── -/

/-- The query-plan dict.  Keys may be absent (none); LOCAL_RESPONSES and
the degraded plan carry all six data keys, the degraded plan also the
error key. -/
structure Plan where
  sql : Option String := none
  explanation : Option String := none
  chart_type : Option String := none
  x_col : Option String := none
  y_col : Option String := none
  followups : Option (List String) := none
  error : Option String := none
deriving DecidableEq

def sfPlan : Plan :=
  { sql := some "SELECT stage, COUNT(*) AS deal_count, SUM(amount) AS total_value\nFROM `erp_poc.sf_opportunities`\nGROUP BY stage ORDER BY total_value DESC",
    explanation := some "I analysed the Salesforce opportunity pipeline. **Closed Won** leads at $3.2M across 22 deals, while **Proposal** stage has $2.1M indicating a strong pipeline. The **Closed Lost** rate is relatively low, suggesting effective qualification.",
    chart_type := some "bar",
    x_col := some "stage",
    y_col := some "total_value",
    followups := some ["What is the average deal size by region?",
                       "Show win rate trend over last 6 months",
                       "Which sales rep has the highest close rate?"] }

def nsPlan : Plan :=
  { sql := some "SELECT department, SUM(amount) AS total_amount, COUNT(*) AS transaction_count\nFROM `erp_poc.ns_gl_transactions`\nGROUP BY department ORDER BY total_amount DESC",
    explanation := some "NetSuite GL analysis shows **Operations** has the highest spend at $320K with 120 transactions. **R&D** is second at $280K. All departments have budget remaining, with **R&D** having the most runway ($120K).",
    chart_type := some "bar",
    x_col := some "department",
    y_col := some "total_amount",
    followups := some ["Show accounts payable aging report",
                       "Which vendors have overdue invoices?",
                       "Monthly revenue vs expense trend"] }

def coupaPlan : Plan :=
  { sql := some "SELECT supplier, po_count, total_spend\nFROM `erp_poc.coupa_purchase_orders`\nGROUP BY supplier ORDER BY total_spend DESC",
    explanation := some "Coupa procurement analysis: **Global Parts** is the top supplier at $520K across 45 POs. **CloudServ** follows at $310K. Average delivery ranges from 1-8 days, with **CloudServ** (cloud services) being fastest at 1 day.",
    chart_type := some "bar",
    x_col := some "supplier",
    y_col := some "total_spend",
    followups := some ["Which suppliers have the fastest delivery times?",
                       "Show procurement spend by category",
                       "List POs pending approval over $50K"] }

def wdPlan : Plan :=
  { sql := some "SELECT department, headcount, attrition_rate, avg_tenure_years\nFROM `erp_poc.wd_employees`\nGROUP BY department",
    explanation := some "Workday headcount analysis: **Engineering** is the largest team (120 people). **Support** has the highest attrition at 15%, while **HR** has the lowest at 3%. Average tenure ranges from 2.5 to 5.0 years.",
    chart_type := some "bar",
    x_col := some "department",
    y_col := some "headcount",
    followups := some ["Which departments need to hire most urgently?",
                       "Show payroll cost breakdown by department",
                       "What is the time-off utilization rate?"] }

def jiraPlan : Plan :=
  { sql := some "SELECT project, open_issues, completed_sprints, avg_velocity\nFROM `erp_poc.jira_sprints`\nGROUP BY project",
    explanation := some "JIRA project overview: **Frontend** has the most open issues (55) but strong velocity. **DevOps** leads in sprint completion (15 sprints) with the highest velocity (40 pts). **Security** has the fewest open issues — good sign.",
    chart_type := some "bar",
    x_col := some "project",
    y_col := some "open_issues",
    followups := some ["Which projects are behind schedule?",
                       "Show sprint velocity trend for Platform team",
                       "List critical/blocker issues across all projects"] }

def inhousePlan : Plan :=
  { sql := some "SELECT metric_name, current_value, target_value\nFROM `erp_poc.app_kpi_dashboard`\nORDER BY metric_name",
    explanation := some "Internal KPI dashboard: **Uptime** is at 99.95% (target: 99.99%). **DAU** is 45K and trending up toward the 50K goal. **Error Rate** has improved to 0.3% from the 0.1% target. **NPS Score** is 72, showing good user satisfaction.",
    chart_type := some "bar",
    x_col := some "metric_name",
    y_col := some "current_value",
    followups := some ["Show API latency trend over last 30 days",
                       "Which endpoints have the highest error rate?",
                       "Compare current metrics vs last quarter"] }

def LOCAL_RESPONSES : List (String × Plan) :=
  [("salesforce", sfPlan), ("netsuite", nsPlan), ("coupa", coupaPlan),
   ("workday", wdPlan), ("jira", jiraPlan), ("inhouse", inhousePlan)]

/-- The plan built by the except-branch of agent._call_vertex_ai. -/
def vertex_error_plan (e : String) : Plan :=
  { sql := some "-- Error generating SQL",
    explanation := some ("⚠️ Vertex AI error: " ++ e),
    chart_type := some "bar",
    x_col := some "",
    y_col := some "",
    followups := some [],
    error := some e }

/-- agent._call_vertex_ai.  The try-block body (vertexai init, prompt
construction from the schema, generate_content, fence stripping and
json.loads) is the tryOutcome parameter; an exception anywhere in it
lands in the except branch. -/
def call_vertex_ai (tryOutcome : Except String Plan) : Plan :=
  match tryOutcome with
  | .ok plan => plan
  | .error e => vertex_error_plan e

/-- agent.run_agent.  Local sources return the canned response for the
base id (default the salesforce one), copied; live sources call Vertex
AI. -/
def run_agent (question model_id source_id : String) (is_local : Bool)
    (tryOutcome : Except String Plan) : Plan :=
  let base_id := get_bq_source_id source_id
  if is_local then
    dictGet LOCAL_RESPONSES base_id sfPlan
  else
    call_vertex_ai tryOutcome

/- ── app.py helpers ────────────────────────────────────────────────── -/

/-- The chart-kind dispatch of app.build_chart (pie and line are matched
explicitly, everything else renders as a bar chart). -/
def chartKind (chart_type : String) : String :=
  if chart_type = "pie" then "pie"
  else if chart_type = "line" then "line"
  else "bar"

/-- app.build_chart, restricted to its decision content: the None/empty
guard, the axis-fallback resolution and the chart-kind dispatch.  The
identical axis-fallback block also appears in
report_generator._build_chart_html. -/
def build_chart (df : Option DFrame) (chart_type x_col y_col : String) :
    Option (String × String × String) :=
  match df with
  | none => none
  | some df =>
    if dfEmpty df then none
    else
      let cols := colNames df
      let xr := if x_col ∉ cols then cols.headD "" else x_col
      let yr :=
        if y_col ∉ cols ∨ y_col = xr then
          match numNames df with
          | n :: _ => n
          | [] => cols.getLastD ""
        else y_col
      some (chartKind chart_type, xr, yr)

structure KPI where
  label : String
  value : String
deriving DecidableEq

/-- Insert thousands separators into a reversed digit list. -/
def commaRev : List Char → List Char
  | a :: b :: c :: d :: rest => a :: b :: c :: ',' :: commaRev (d :: rest)
  | l => l

/-- Python format "{:,}" of a natural number. -/
def fmtThousands (n : Nat) : String :=
  ⟨(commaRev (Nat.repr n).data.reverse).reverse⟩

/-- Round half to even, the rounding of the Python float format
"{:,.0f}" (sums modelled as exact rationals). -/
def rhe (q : ℚ) : ℤ :=
  let f := ⌊q⌋
  if q - f < 1 / 2 then f
  else if (1 : ℚ) / 2 < q - f then f + 1
  else if f % 2 = 0 then f
  else f + 1

/-- Python format "{:,.0f}" of a rational sum. -/
def fmtNum (q : ℚ) : String :=
  let n := rhe q
  (if n < 0 then "-" else "") ++ fmtThousands n.natAbs

/-- col.replace("_", " "): for a single-character pattern the replacement
is a per-character map. -/
def underscoreToSpace (s : String) : String :=
  ⟨s.data.map (fun c => if c = '_' then ' ' else c)⟩

/-- Python str.title(): a letter that follows a non-letter is upper-cased,
all other letters are lower-cased. -/
def titleAux : Bool → List Char → List Char
  | _, [] => []
  | prevAlpha, c :: cs =>
    (if c.isAlpha then (if prevAlpha then c.toLower else c.toUpper) else c)
      :: titleAux c.isAlpha cs

def pythonTitle (s : String) : String := ⟨titleAux false s.data⟩

/-- The KPI label of app.compute_kpis: col.replace("_", " ").title(). -/
def kpiLabel (colName : String) : String :=
  pythonTitle (underscoreToSpace colName)

/-- app.compute_kpis: a Records entry with the comma-formatted row count,
one entry per numeric column among the first two, then take 3. -/
def compute_kpis (df : DFrame) : List KPI :=
  let kpis : List KPI := [⟨"Records", fmtThousands (nRows df)⟩]
  let kpis := kpis ++ ((numCols df).take 2).map
    (fun p => (⟨kpiLabel p.1, fmtNum p.2.sum⟩ : KPI))
  kpis.take 3

/-- One entry of st.session_state.messages.  The user dict has no model
key; the agent dict has one. -/
structure ChatMsg where
  role : String
  content : String
  model : Option String := none
deriving DecidableEq

/-- The session state touched by app.run_query. -/
structure SessionState where
  messages : List ChatMsg
  last_df : Option DFrame
  last_result : Option Plan
deriving DecidableEq

/-- The warning appended to the agent turn when the executor reported an
error: "\n\n⚠️ Query error: {err}". -/
def warnSuffix (e : String) : String := "\n\n⚠️ Query error: " ++ e

/-- app.run_query.  The source appends the agent message first and then,
when err is truthy (neither None nor the empty string), appends the
warning to the content of that last message; the net state after the call
is built here directly. -/
def run_query (question model_id : String) (source : SourceDesc)
    (tryOutcome : Except String Plan) (live : LiveOutcome)
    (st : SessionState) : SessionState :=
  let localMode := is_local_source source
  let src_id := source.id
  let result := run_agent question model_id src_id localMode tryOutcome
  let exec := execute_sql (result.sql.getD "") src_id question localMode live
  let df := exec.1
  let err := exec.2
  let aiModel := if localMode then "Local Demo" else (get_model_by_id model_id).label
  let aiContent := result.explanation.getD ""
  let aiContent :=
    match err with
    | some e => if e ≠ "" then aiContent ++ warnSuffix e else aiContent
    | none => aiContent
  { messages := st.messages ++
      [{ role := "user", content := question, model := none },
       { role := "ai", content := aiContent, model := some aiModel }],
    last_result := some result,
    last_df := if err = none then some df else none }

/- ── Helper lemmas ─────────────────────────────────────────────────── -/

/-- dict.get falls back to the default when the key is not present. -/
theorem dictGet_not_mem {α : Type} (d : List (String × α)) (k : String)
    (dflt : α) (h : k ∉ d.map (·.1)) : dictGet d k dflt = dflt := by
  induction d with
  | nil => rfl
  | cons p rest ih =>
    simp only [List.map_cons, List.mem_cons] at h
    push_neg at h
    simpa [dictGet, h.1] using ih h.2

/-- Every fixture frame that get_mock_df can return has six rows. -/
theorem get_mock_df_rows (b : String) : nRows (get_mock_df b) = 6 := by
  unfold get_mock_df MOCK_DATA
  simp only [dictGet]
  repeat' split
  all_goals rfl

/-- Every canned plan that the local branch of run_agent can return has
chart_type bar. -/
theorem local_chart_bar (b : String) :
    (dictGet LOCAL_RESPONSES b sfPlan).chart_type = some "bar" := by
  unfold LOCAL_RESPONSES
  simp only [dictGet]
  repeat' split
  all_goals rfl

/-- Every plan the local branch of run_agent can return has non-empty
sql, a chart_type of the enumeration and exactly three followups. -/
theorem canned_plan_ok (b : String) :
    (dictGet LOCAL_RESPONSES b sfPlan).sql.getD "" ≠ ""
    ∧ (dictGet LOCAL_RESPONSES b sfPlan).chart_type.getD "" ∈ ["bar", "line", "pie"]
    ∧ ((dictGet LOCAL_RESPONSES b sfPlan).followups.getD []).length = 3 := by
  unfold LOCAL_RESPONSES
  simp only [dictGet]
  repeat' split
  all_goals exact ⟨by decide, by decide, by decide⟩

def localSourceIds : List String :=
  (DATA_SOURCES.filter (fun s => is_local_source s)).map (·.id)

theorem localSourceIds_eq :
    localSourceIds = ["local_salesforce", "local_netsuite", "local_coupa",
                      "local_workday", "local_jira", "local_inhouse"] := by
  rfl

theorem SOURCE_IDS_eq :
    SOURCE_IDS = ["salesforce", "netsuite", "coupa", "workday", "jira",
                  "inhouse", "local_salesforce", "local_netsuite",
                  "local_coupa", "local_workday", "local_jira",
                  "local_inhouse"] := by
  rfl

/- ── Claim theorems ────────────────────────────────────────────────── -/

/-- C1: when the generative-backend call or response parsing raises any
exception, the live plan generator (run_agent with is_local false, via
the Vertex AI caller) does not propagate it and returns a plan with all
six fields present: a placeholder sql comment, an explanation carrying
the diagnostic behind a distinctive prefix that no canned explanation
starts with, chart_type bar, empty x_col and y_col, empty followups, and
an error field holding the exception string. -/
theorem C1_degraded_plan (question model_id source_id e : String) :
    run_agent question model_id source_id false (Except.error e) =
      { sql := some "-- Error generating SQL",
        explanation := some ("⚠️ Vertex AI error: " ++ e),
        chart_type := some "bar",
        x_col := some "",
        y_col := some "",
        followups := some [],
        error := some e }
    ∧ LOCAL_RESPONSES.all
        (fun kv => !(("⚠️ Vertex AI error:".data).isPrefixOf
                      (kv.2.explanation.getD "").data)) = true :=
  ⟨rfl, by decide⟩

/-- C2: for either mode of the query executor, a non-null error implies
that the returned table is the empty sentinel (no rows, no columns). -/
theorem C2_error_empty_table (sql source_id question : String)
    (is_local : Bool) (live : LiveOutcome)
    (h : (execute_sql sql source_id question is_local live).2 ≠ none) :
    (execute_sql sql source_id question is_local live).1 = emptyDF := by
  cases is_local with
  | true => simp [execute_sql] at h
  | false =>
    cases live with
    | success df => simp [execute_sql] at h
    | missingLib => rfl
    | raised e => rfl

theorem C2_witness :
    (execute_sql "SELECT 1" "salesforce" "q" false (LiveOutcome.raised "boom")).2 ≠ none
    ∧ (execute_sql "SELECT 1" "salesforce" "q" false (LiveOutcome.raised "boom")).1 = emptyDF :=
  ⟨by decide,
   C2_error_empty_table "SELECT 1" "salesforce" "q" false (LiveOutcome.raised "boom") (by decide)⟩

/-- C4: in local mode the executor returns the fixture registered for the
base identifier (the salesforce fixture for unrecognized base ids) with a
null error; the table is non-empty (all fixtures have six rows), and the
result does not depend on the sql, question or live-outcome arguments. -/
theorem C4_local_execute (sql question sql₂ question₂ source_id : String)
    (live live₂ : LiveOutcome) :
    execute_sql sql source_id question true live =
      (get_mock_df (get_bq_source_id source_id), none)
    ∧ 0 < nRows (get_mock_df (get_bq_source_id source_id))
    ∧ execute_sql sql source_id question true live =
        execute_sql sql₂ source_id question₂ true live₂ := by
  refine ⟨rfl, ?_, rfl⟩
  rw [get_mock_df_rows]
  decide

/-- C5 counterexample: the prefix-stripping transform is the Python
replace of every occurrence of "local_", which is not idempotent on
arbitrary strings (removing an occurrence can create a new one by
concatenation), and is not a no-op on every identifier lacking the
offline prefix (it also strips interior occurrences). -/
theorem C5_counterexample :
    get_bq_source_id "locallocal__" = "local_"
    ∧ get_bq_source_id (get_bq_source_id "locallocal__") = ""
    ∧ get_bq_source_id (get_bq_source_id "locallocal__") ≠ get_bq_source_id "locallocal__"
    ∧ ("local_".data.isPrefixOf "my_local_db".data) = false
    ∧ get_bq_source_id "my_local_db" ≠ "my_local_db" := by
  decide

/-- C5 amended: on every identifier of the source registry the transform
is idempotent, and on the registry identifiers without the offline prefix
it is a no-op. -/
theorem C5_registry_idempotent (source_id : String)
    (h : source_id ∈ SOURCE_IDS) :
    get_bq_source_id (get_bq_source_id source_id) = get_bq_source_id source_id
    ∧ (("local_".data.isPrefixOf source_id.data) = false →
        get_bq_source_id source_id = source_id) := by
  rw [SOURCE_IDS_eq] at h
  fin_cases h <;> exact ⟨by decide, by decide⟩

theorem C5_witness :
    ("netsuite" ∈ SOURCE_IDS)
    ∧ (get_bq_source_id (get_bq_source_id "netsuite") = get_bq_source_id "netsuite"
       ∧ (("local_".data.isPrefixOf "netsuite".data) = false →
           get_bq_source_id "netsuite" = "netsuite")) :=
  ⟨by decide, C5_registry_idempotent "netsuite" (by decide)⟩

/-- C9: when live execution is requested and the BigQuery client library
cannot be imported, the executor returns the empty table paired with the
distinct capability message, which names the missing dependency and the
pip install remedy. -/
theorem C9_missing_dependency (sql source_id question : String) :
    execute_sql sql source_id question false LiveOutcome.missingLib =
      (emptyDF, some "google-cloud-bigquery not installed. Run: pip install google-cloud-bigquery")
    ∧ ("google-cloud-bigquery".data.isPrefixOf
        "google-cloud-bigquery not installed. Run: pip install google-cloud-bigquery".data) = true
    ∧ "pip install google-cloud-bigquery".data <:+
        "google-cloud-bigquery not installed. Run: pip install google-cloud-bigquery".data :=
  ⟨rfl, by decide, by decide⟩

/-- C3: for every local source identifier of the registry, run_agent in
local mode returns the canned plan keyed by the base identifier, with
non-empty sql, chart_type in the chart enumeration, exactly three
followups, the same value irrespective of the question, model and
backend-outcome arguments; and a source identifier whose base id is not
in the catalog yields the default salesforce plan. -/
theorem C3_local_plan_catalog (question model_id q₂ m₂ source_id sid₂ : String)
    (tryOutcome tb₂ : Except String Plan)
    (h : source_id ∈ localSourceIds)
    (h₂ : get_bq_source_id sid₂ ∉ LOCAL_RESPONSES.map (·.1)) :
    (run_agent question model_id source_id true tryOutcome =
        dictGet LOCAL_RESPONSES (get_bq_source_id source_id) sfPlan
      ∧ (run_agent question model_id source_id true tryOutcome).sql.getD "" ≠ ""
      ∧ (run_agent question model_id source_id true tryOutcome).chart_type.getD ""
          ∈ ["bar", "line", "pie"]
      ∧ ((run_agent question model_id source_id true tryOutcome).followups.getD []).length = 3
      ∧ run_agent question model_id source_id true tryOutcome =
          run_agent q₂ m₂ source_id true tb₂)
    ∧ run_agent q₂ m₂ sid₂ true tb₂ = sfPlan := by
  constructor
  · have hc := canned_plan_ok (get_bq_source_id source_id)
    exact ⟨rfl, hc.1, hc.2.1, hc.2.2, rfl⟩
  · exact dictGet_not_mem LOCAL_RESPONSES (get_bq_source_id sid₂) sfPlan h₂

theorem C3_witness :
    ("local_workday" ∈ localSourceIds)
    ∧ (get_bq_source_id "mystery_source" ∉ LOCAL_RESPONSES.map (·.1))
    ∧ ((run_agent "q" "m" "local_workday" true (Except.error "x") =
          dictGet LOCAL_RESPONSES (get_bq_source_id "local_workday") sfPlan
        ∧ (run_agent "q" "m" "local_workday" true (Except.error "x")).sql.getD "" ≠ ""
        ∧ (run_agent "q" "m" "local_workday" true (Except.error "x")).chart_type.getD ""
            ∈ ["bar", "line", "pie"]
        ∧ ((run_agent "q" "m" "local_workday" true (Except.error "x")).followups.getD []).length = 3
        ∧ run_agent "q" "m" "local_workday" true (Except.error "x") =
            run_agent "q2" "m2" "local_workday" true (Except.error "y"))
       ∧ run_agent "q2" "m2" "mystery_source" true (Except.error "y") = sfPlan) :=
  ⟨by decide, by decide,
   C3_local_plan_catalog "q" "m" "q2" "m2" "local_workday" "mystery_source"
     (Except.error "x") (Except.error "y") (by decide) (by decide)⟩

/-- C6 counterexample: when the backend response parses successfully, the
live path returns the parsed dict verbatim, so a chart_type outside the
enumeration (or an absent one) is not replaced by bar in the returned
plan. -/
def scatterPlan : Plan :=
  { sql := some "SELECT a, b FROM t",
    explanation := some "A scatter view.",
    chart_type := some "scatter",
    x_col := some "a",
    y_col := some "b",
    followups := some [] }

theorem C6_counterexample :
    (run_agent "q" "gemini-2.0-flash-001" "salesforce" false
        (Except.ok scatterPlan)).chart_type = some "scatter"
    ∧ ("scatter" : String) ∉ ["bar", "line", "pie"]
    ∧ (run_agent "q" "gemini-2.0-flash-001" "salesforce" false
        (Except.ok { scatterPlan with chart_type := none })).chart_type = none := by
  decide

/-- C6 amended: plans returned by run_agent in local mode and by the live
failure path always carry chart_type bar (hence a value of the
enumeration); on the live success path the parsed chart_type is returned
unvalidated, and an absent or out-of-enumeration value is only normalized
at chart-building time, where the dispatch always lands in {bar, line,
pie}. -/
theorem C6_chart_type_policy (question model_id source_id e : String)
    (tryOutcome : Except String Plan) :
    (run_agent question model_id source_id true tryOutcome).chart_type = some "bar"
    ∧ (run_agent question model_id source_id false (Except.error e)).chart_type = some "bar"
    ∧ (∀ p : Plan, run_agent question model_id source_id false (Except.ok p) = p)
    ∧ (∀ ct : String, chartKind ct ∈ ["bar", "line", "pie"]) := by
  refine ⟨local_chart_bar (get_bq_source_id source_id), rfl, fun p => rfl, fun ct => ?_⟩
  unfold chartKind
  split
  · decide
  · split
    · decide
    · decide

/-- C7 counterexample: the warning suffix is appended under a Python
truthiness test, so a raised execution exception whose string form is
empty produces a non-null error with no warning suffix on the agent
turn. -/
theorem C7_counterexample :
    (execute_sql "SELECT 1" "salesforce" "q" false (LiveOutcome.raised "")).2 = some ""
    ∧ some "" ≠ (none : Option String)
    ∧ (run_query "q" "gemini-2.0-flash-001"
        ⟨"salesforce", "Salesforce", false⟩
        (Except.ok { sfPlan with explanation := some "All good." })
        (LiveOutcome.raised "")
        ⟨[], none, none⟩).messages.map (fun m => m.content) = ["q", "All good."] := by
  decide

/-- C7 amended: run_query appends exactly two entries to the conversation
log — a user turn holding the question, then an agent turn whose content
is the plan explanation with the execution error appended as a warning
suffix exactly when the error is non-null and non-empty — leaves the
previously appended entries unchanged, and overwrites the current-result
slots: last_result holds the new plan, and last_df holds the executed
table if and only if the execution error is null. -/
theorem C7_turn_effects (question model_id : String) (source : SourceDesc)
    (tryOutcome : Except String Plan) (live : LiveOutcome) (st : SessionState) :
    (run_query question model_id source tryOutcome live st).messages =
      st.messages ++
        [{ role := "user", content := question, model := none },
         { role := "ai",
           content :=
             match (execute_sql
                 ((run_agent question model_id source.id (is_local_source source) tryOutcome).sql.getD "")
                 source.id question (is_local_source source) live).2 with
             | some e =>
                 if e ≠ "" then
                   (run_agent question model_id source.id (is_local_source source) tryOutcome).explanation.getD ""
                     ++ warnSuffix e
                 else
                   (run_agent question model_id source.id (is_local_source source) tryOutcome).explanation.getD ""
             | none =>
                 (run_agent question model_id source.id (is_local_source source) tryOutcome).explanation.getD "",
           model := some (if is_local_source source then "Local Demo"
                          else (get_model_by_id model_id).label) }]
    ∧ (run_query question model_id source tryOutcome live st).last_result =
        some (run_agent question model_id source.id (is_local_source source) tryOutcome)
    ∧ ((execute_sql
          ((run_agent question model_id source.id (is_local_source source) tryOutcome).sql.getD "")
          source.id question (is_local_source source) live).2 = none →
        (run_query question model_id source tryOutcome live st).last_df =
          some (execute_sql
            ((run_agent question model_id source.id (is_local_source source) tryOutcome).sql.getD "")
            source.id question (is_local_source source) live).1)
    ∧ ((execute_sql
          ((run_agent question model_id source.id (is_local_source source) tryOutcome).sql.getD "")
          source.id question (is_local_source source) live).2 ≠ none →
        (run_query question model_id source tryOutcome live st).last_df = none)
    ∧ (run_query question model_id source tryOutcome live st).messages.take
        st.messages.length = st.messages := by
  refine ⟨rfl, rfl, ?_, ?_, ?_⟩
  · intro h
    simp only [run_query]
    rw [if_pos h]
  · intro h
    simp only [run_query]
    rw [if_neg h]
  · simp only [run_query]
    exact List.take_left _ _

theorem C7_witness :
    (run_query "q" "gemini-2.0-flash-001" ⟨"local_jira", "Local · JIRA", true⟩
        (Except.error "x") (LiveOutcome.raised "zz")
        ⟨[⟨"user", "old", none⟩], none, none⟩).messages.take 1 =
      [⟨"user", "old", none⟩] :=
  (C7_turn_effects "q" "gemini-2.0-flash-001" ⟨"local_jira", "Local · JIRA", true⟩
    (Except.error "x") (LiveOutcome.raised "zz")
    ⟨[⟨"user", "old", none⟩], none, none⟩).2.2.2.2

/-- C8: for a present, non-empty table the chart-building step resolves
the axes by the fallback policy: a requested x column that is not a
column of the table is replaced by the first column; a requested y column
that is not a column or equals the resolved x column is replaced by the
first numeric column, or by the last column when the table has no numeric
column. -/
theorem C8_axis_fallback (df : DFrame) (chart_type x_col y_col : String)
    (h : dfEmpty df = false) :
    build_chart (some df) chart_type x_col y_col =
      some (chartKind chart_type,
        (if x_col ∉ colNames df then (colNames df).headD "" else x_col),
        (if y_col ∉ colNames df
            ∨ y_col = (if x_col ∉ colNames df then (colNames df).headD "" else x_col) then
           match numNames df with
           | n :: _ => n
           | [] => (colNames df).getLastD ""
         else y_col)) := by
  simp only [build_chart, h, Bool.false_eq_true, if_false]

theorem C8_witness :
    dfEmpty sfDF = false
    ∧ build_chart (some sfDF) "bar" "nope" "stage" =
        some (chartKind "bar",
          (if "nope" ∉ colNames sfDF then (colNames sfDF).headD "" else "nope"),
          (if "stage" ∉ colNames sfDF
              ∨ "stage" = (if "nope" ∉ colNames sfDF then (colNames sfDF).headD "" else "nope") then
             match numNames sfDF with
             | n :: _ => n
             | [] => (colNames sfDF).getLastD ""
           else "stage")) :=
  ⟨by decide, C8_axis_fallback sfDF "bar" "nope" "stage" (by decide)⟩

/-- C10 counterexample: the KPI entries for numeric columns are labelled
with the beautified column name (underscores to spaces, title-cased), not
with the raw column name: the workday fixture column headcount yields the
label Headcount. -/
theorem C10_counterexample :
    (compute_kpis wdDF).map (fun k => k.label) = ["Records", "Headcount", "Avg Tenure Years"]
    ∧ colNames wdDF = ["department", "headcount", "avg_tenure_years", "attrition_rate"]
    ∧ ("Headcount" : String) ≠ "headcount" := by
  decide

/-- C10 amended: for every non-empty table, compute_kpis returns at most
three entries; the first is labelled Records and holds the comma-formatted
row count, followed by one entry per numeric column among the first two
numeric columns, labelled with the title-cased, underscore-to-space
rendering of the column name and valued at the column sum rounded to an
integer. -/
theorem C10_kpi_shape (df : DFrame) (h : 0 < nRows df) :
    (compute_kpis df).length ≤ 3
    ∧ compute_kpis df =
        (⟨"Records", fmtThousands (nRows df)⟩ : KPI) ::
          ((numCols df).take 2).map (fun p => (⟨kpiLabel p.1, fmtNum p.2.sum⟩ : KPI))
    ∧ ((numCols df).take 2).length ≤ 2 := by
  have hM : (((numCols df).take 2).map
      (fun p => (⟨kpiLabel p.1, fmtNum p.2.sum⟩ : KPI))).length ≤ 2 := by
    rw [List.length_map]
    exact List.length_take_le 2 _
  refine ⟨List.length_take_le 3 _, ?_, List.length_take_le 2 _⟩
  show ((⟨"Records", fmtThousands (nRows df)⟩ : KPI) ::
      ((numCols df).take 2).map (fun p => (⟨kpiLabel p.1, fmtNum p.2.sum⟩ : KPI))).take 3 = _
  rw [List.take_succ_cons, List.take_of_length_le hM]

theorem C10_witness :
    0 < nRows wdDF
    ∧ ((compute_kpis wdDF).length ≤ 3
       ∧ compute_kpis wdDF =
           (⟨"Records", fmtThousands (nRows wdDF)⟩ : KPI) ::
             ((numCols wdDF).take 2).map (fun p => (⟨kpiLabel p.1, fmtNum p.2.sum⟩ : KPI))
       ∧ ((numCols wdDF).take 2).length ≤ 2) :=
  ⟨by decide, C10_kpi_shape wdDF (by decide)⟩

end AgenticBI
